import Mathlib

/-!
# T.125 MCS Connect-Initial writer

A verification development for `libfreerdp-core/mcs.c`: the domain-parameter
defaults seeded by `mcs_new`, the serialisation of one `DOMAIN_PARAMETERS`
record by `mcs_write_domain_parameters`, and the assembly of the Connect-Initial
PDU by `mcs_write_connect_initial`.

Modelling conventions.

* A stream is the list of the bytes written into it so far; writing appends.  A
  pointer is an address, a natural number, `0` for the null pointer.
* The C type `uint32` is a natural number, the C type `int` is an integer taken
  through `toInt32` wherever the source stores a computed value in an `int`.
* The BER primitives (`ber_write_*`) live in `ber.c`, which is not part of the
  sources at hand.  The writers are therefore parametric in a record of
  primitives (`BerPrimitives`) acting on a state, with each primitive handed
  exactly the arguments the source hands it: the application tag, the octet
  string and the boolean receive the stream `s`, `ber_write_integer` receives a
  value and no stream.  The record is instantiated with a call log
  (`BerCall.log`) and with byte encodings (`BerEncoding.primitives`).
* For primitives that may fail the same code runs over primitives that also
  report a status (`FallibleBer`), which the code does not test.
* For what a call leaves untouched, and for `mcs_new` and `mcs_free`, the same code
  is read over a memory of modules and streams by address (`Memory`).
-/

namespace Mcs

/-! ## Machine integers and streams -/

/-- Value of an integer once stored in a C `int`: 32 bits, two's complement. -/
def toInt32 (x : Int) : Int :=
  (x + 2147483648) % 4294967296 - 2147483648

/-- Largest value of a C `int`. -/
def INT_MAX : Int := 2147483647

/-- Modelled from the spec: the `STREAM` type of `stream.h` (absent) is a growable
byte buffer; it is represented by the bytes written into it so far. -/
abbrev STREAM := List Nat

/-- Modelled from the spec: `stream_get_length` of `stream.h` (absent), the
`measureLength` of the spec, returns the number of bytes already written into a
buffer. -/
def stream_get_length (s : STREAM) : Nat := s.length

/-! ## Data model -/

/-- The record `DOMAIN_PARAMETERS`: eight `uint32` fields, in the order of the
`DomainParameters` grammar. -/
structure DOMAIN_PARAMETERS where
  maxChannelIds : Nat
  maxUserIds : Nat
  maxTokenIds : Nat
  numPriorities : Nat
  minThroughput : Nat
  maxHeight : Nat
  maxMCSPDUsize : Nat
  protocolVersion : Nat
deriving DecidableEq, Repr

/-- The MCS module `rdpMcs`: a transport reference (an address, `0` for the null
pointer) and three domain-parameter records held by value. -/
structure rdpMcs where
  transport : Nat
  targetParameters : DOMAIN_PARAMETERS
  minimumParameters : DOMAIN_PARAMETERS
  maximumParameters : DOMAIN_PARAMETERS
deriving DecidableEq, Repr

/-- The all-zero domain-parameter record. -/
def DOMAIN_PARAMETERS.zero : DOMAIN_PARAMETERS :=
  { maxChannelIds := 0, maxUserIds := 0, maxTokenIds := 0, numPriorities := 0,
    minThroughput := 0, maxHeight := 0, maxMCSPDUsize := 0, protocolVersion := 0 }

/-- The all-zero MCS module, the content of freshly zeroed storage. -/
def rdpMcs.zero : rdpMcs :=
  { transport := 0, targetParameters := DOMAIN_PARAMETERS.zero,
    minimumParameters := DOMAIN_PARAMETERS.zero,
    maximumParameters := DOMAIN_PARAMETERS.zero }

/-- Modelled from the spec: `MCS_TYPE_CONNECT_INITIAL` is declared in `mcs.h`
(absent); the spec and the grammar comment give `[APPLICATION 101]`. -/
def MCS_TYPE_CONNECT_INITIAL : Nat := 101

/-- The global `callingDomainSelector` as initialised: one byte of value `0x01`. -/
def callingDomainSelector : List Nat := [0x01]

/-- The global `calledDomainSelector` as initialised: one byte of value `0x01`. -/
def calledDomainSelector : List Nat := [0x01]

/-! ## The BER primitives as parameters -/

/-- The four BER primitives as the source calls them, over a state `ω` that holds
whatever a primitive may change.  The application tag, the octet string and the
boolean are handed the stream `s` (an address) first; `ber_write_integer` is
handed the value only, as in `ber_write_integer(domainParameters->maxChannelIds)`.
Each returns the state after the call. -/
structure BerPrimitives (ω : Type) where
  ber_write_application_tag : ω → Nat → Nat → Int → ω
  ber_write_octet_string : ω → Nat → List Nat → Int → ω
  ber_write_boolean : ω → Nat → Bool → ω
  ber_write_integer : ω → Nat → ω

/-! ## The code of `mcs.c` -/

/-- The function `mcs_init_domain_parameters`: assigns four of the eight fields. -/
def mcs_init_domain_parameters (domainParameters : DOMAIN_PARAMETERS)
    (maxChannelIds maxUserIds maxTokenIds maxMCSPDUsize : Nat) : DOMAIN_PARAMETERS :=
  let domainParameters := { domainParameters with maxChannelIds := maxChannelIds }
  let domainParameters := { domainParameters with maxUserIds := maxUserIds }
  let domainParameters := { domainParameters with maxTokenIds := maxTokenIds }
  let domainParameters := { domainParameters with maxMCSPDUsize := maxMCSPDUsize }
  domainParameters

set_option linter.unusedVariables false in
/-- The function `mcs_write_domain_parameters`: eight calls of the integer
primitive, one per field, each with the value as its only argument.  The stream
parameter `s` is received and not used, as in the source. -/
def mcs_write_domain_parameters {ω : Type} (B : BerPrimitives ω) (w : ω) (s : Nat)
    (domainParameters : DOMAIN_PARAMETERS) : ω :=
  let w := B.ber_write_integer w domainParameters.maxChannelIds
  let w := B.ber_write_integer w domainParameters.maxUserIds
  let w := B.ber_write_integer w domainParameters.maxTokenIds
  let w := B.ber_write_integer w domainParameters.numPriorities
  let w := B.ber_write_integer w domainParameters.minThroughput
  let w := B.ber_write_integer w domainParameters.maxHeight
  let w := B.ber_write_integer w domainParameters.maxMCSPDUsize
  let w := B.ber_write_integer w domainParameters.protocolVersion
  w

/-- The function `mcs_write_connect_initial`, over the context and the userData
bytes its pointers refer to on entry.  Both `gcc_CCrq_length` and `length` are C
`int`s. -/
def mcs_write_connect_initial {ω : Type} (B : BerPrimitives ω) (w : ω) (s : Nat)
    (mcs : rdpMcs) (user_data : STREAM) : ω :=
  let gcc_CCrq_length : Int := toInt32 (stream_get_length user_data)
  let length : Int := toInt32 (gcc_CCrq_length + 3 * 34 + 13)
  let w := B.ber_write_application_tag w s MCS_TYPE_CONNECT_INITIAL length
  let w := B.ber_write_octet_string w s callingDomainSelector callingDomainSelector.length
  let w := B.ber_write_octet_string w s calledDomainSelector calledDomainSelector.length
  let w := B.ber_write_boolean w s true
  let w := mcs_write_domain_parameters B w s mcs.targetParameters
  let w := mcs_write_domain_parameters B w s mcs.minimumParameters
  let w := mcs_write_domain_parameters B w s mcs.maximumParameters
  let w := B.ber_write_octet_string w s user_data gcc_CCrq_length
  w

/-- Modelled from the spec: `xzalloc` belongs to the utility library (absent); it
either yields zero-initialised storage or fails.  The flag says whether storage
can be obtained. -/
def xzalloc (available : Bool) : Option rdpMcs :=
  if available then some rdpMcs.zero else none

/-- The function `mcs_new`: the null pointer is `none`. -/
def mcs_new (available : Bool) (transport : Nat) : Option rdpMcs :=
  match xzalloc available with
  | none => none
  | some mcs =>
    let mcs := { mcs with transport := transport }
    let mcs := { mcs with targetParameters :=
      mcs_init_domain_parameters mcs.targetParameters 34 2 0 0xFFFF }
    let mcs := { mcs with minimumParameters :=
      mcs_init_domain_parameters mcs.minimumParameters 1 1 1 0x420 }
    let mcs := { mcs with maximumParameters :=
      mcs_init_domain_parameters mcs.maximumParameters 0xFFFF 0xFC17 0xFFFF 0xFFFF }
    some mcs

/-! ## Instantiations of the primitives -/

/-- One call of a BER primitive, with the arguments it received: the stream `s`
for the three primitives that are handed one, none for the integer. -/
inductive BerCall where
  | application_tag (s : Nat) (tag : Nat) (length : Int)
  | octet_string (s : Nat) (oct_str : List Nat) (length : Int)
  | boolean (s : Nat) (value : Bool)
  | integer (value : Nat)
deriving DecidableEq, Repr

/-- Primitives that record each call, in order, instead of producing bytes. -/
def BerCall.log : BerPrimitives (List BerCall) :=
  { ber_write_application_tag := fun w s tag length =>
      w ++ [BerCall.application_tag s tag length]
    ber_write_octet_string := fun w s oct_str length =>
      w ++ [BerCall.octet_string s oct_str length]
    ber_write_boolean := fun w s value => w ++ [BerCall.boolean s value]
    ber_write_integer := fun w value => w ++ [BerCall.integer value] }

/-- Replays one recorded call on the primitives `B`. -/
def BerCall.replay {ω : Type} (B : BerPrimitives ω) (w : ω) : BerCall → ω
  | BerCall.application_tag s tag length => B.ber_write_application_tag w s tag length
  | BerCall.octet_string s oct_str length => B.ber_write_octet_string w s oct_str length
  | BerCall.boolean s value => B.ber_write_boolean w s value
  | BerCall.integer value => B.ber_write_integer w value

/-- A byte encoding for each primitive: the bytes one call produces. -/
structure BerEncoding where
  application_tag : Nat → Int → List Nat
  octet_string : List Nat → Int → List Nat
  boolean : Bool → List Nat
  integer : Nat → List Nat

/-- The streams, by address, with `bytes` appended to the one at `a`. -/
def append_at (w : Nat → STREAM) (a : Nat) (bytes : List Nat) : Nat → STREAM :=
  fun x => if x = a then w x ++ bytes else w x

/-- Modelled from the spec: the primitives of `ber.c` (absent) on streams held by
address.  A primitive that is handed a stream appends its encoding to that
stream, as the collaborator contracts of the spec state.  The integer primitive
is handed none: `d` is the stream its bytes reach, `none` when they reach no
stream.  Nothing in the source settles `d`; results are stated for every `d`. -/
def BerEncoding.primitives (E : BerEncoding) (d : Option Nat) : BerPrimitives (Nat → STREAM) :=
  { ber_write_application_tag := fun w s tag length =>
      append_at w s (E.application_tag tag length)
    ber_write_octet_string := fun w s oct_str length =>
      append_at w s (E.octet_string oct_str length)
    ber_write_boolean := fun w s value => append_at w s (E.boolean value)
    ber_write_integer := fun w value =>
      match d with
      | none => w
      | some a => append_at w a (E.integer value) }

/-- The bytes a recorded call stands for under the encoding `E`. -/
def BerEncoding.bytes (E : BerEncoding) : BerCall → List Nat
  | BerCall.application_tag _ tag length => E.application_tag tag length
  | BerCall.octet_string _ oct_str length => E.octet_string oct_str length
  | BerCall.boolean _ value => E.boolean value
  | BerCall.integer value => E.integer value

/-- The bytes a recorded call adds to the stream at `s`: its encoding when the call
was handed `s`, or, for an integer call, when `d` is `s`; nothing otherwise. -/
def BerEncoding.bytes_at (E : BerEncoding) (d : Option Nat) (s : Nat) : BerCall → List Nat
  | BerCall.application_tag h tag length =>
    if s = h then E.application_tag tag length else []
  | BerCall.octet_string h oct_str length =>
    if s = h then E.octet_string oct_str length else []
  | BerCall.boolean h value => if s = h then E.boolean value else []
  | BerCall.integer value => if d = some s then E.integer value else []

/-- Modelled from the spec: the BER length field of `ber.c` (absent): one octet up
to `0x7F`, otherwise `0x82` followed by two octets, most significant first. -/
def ber_length (length : Int) : List Nat :=
  if length > 0x7F then
    [0x82, ((length / 256) % 256).toNat, (length % 256).toNat]
  else
    [(length % 256).toNat]

/-- Modelled from the spec: the BER primitive encoder of `ber.c` (absent).  The spec
fixes only that each primitive appends the BER encoding of its argument; the
bytes are the usual ones: identifier octet (`0x7F` and the tag number for an
application tag above 30, `0x04` OCTET STRING, `0x01` BOOLEAN), length field,
content.  The octets of an INTEGER are not fixed by the spec and are left to the
parameter `integer`. -/
def ber (integer : Nat → List Nat) : BerEncoding :=
  { application_tag := fun tag length =>
      (if tag > 30 then [0x7F, tag % 256] else [0x60 + tag]) ++ ber_length length
    octet_string := fun oct_str length =>
      [0x04] ++ ber_length length ++ oct_str.take length.toNat
    boolean := fun value => [0x01] ++ ber_length 1 ++ [if value then 0xFF else 0x00]
    integer := integer }

/-! ## Primitives that may fail -/

/-- The four BER primitives as operations that may fail: each returns the state it
leaves and, when it failed, an error of type `ε`. -/
structure FallibleBer (ε ω : Type) where
  ber_write_application_tag : ω → Nat → Nat → Int → ω × Option ε
  ber_write_octet_string : ω → Nat → List Nat → Int → ω × Option ε
  ber_write_boolean : ω → Nat → Bool → ω × Option ε
  ber_write_integer : ω → Nat → ω × Option ε

/-- The primitives as the code of `mcs.c` uses them: every call is a statement of
its own, `ber_write_boolean(s, True);`, whose result is not kept and not tested.
What remains of a call is the state it leaves. -/
def FallibleBer.discard {ε ω : Type} (B : FallibleBer ε ω) : BerPrimitives ω :=
  { ber_write_application_tag := fun w s tag length =>
      (B.ber_write_application_tag w s tag length).1
    ber_write_octet_string := fun w s oct_str length =>
      (B.ber_write_octet_string w s oct_str length).1
    ber_write_boolean := fun w s value => (B.ber_write_boolean w s value).1
    ber_write_integer := fun w value => (B.ber_write_integer w value).1 }

/-- Makes one recorded call on primitives that may fail. -/
def BerCall.attempt {ε ω : Type} (B : FallibleBer ε ω) (w : ω) : BerCall → ω × Option ε
  | BerCall.application_tag s tag length => B.ber_write_application_tag w s tag length
  | BerCall.octet_string s oct_str length => B.ber_write_octet_string w s oct_str length
  | BerCall.boolean s value => B.ber_write_boolean w s value
  | BerCall.integer value => B.ber_write_integer w value

/-- Makes every call of a list in order, each on the state the call before it left,
failed or not; returns the final state and the errors raised on the way. -/
def run_all {ε ω : Type} (B : FallibleBer ε ω) : List BerCall → ω → ω × List ε
  | [], w => (w, [])
  | c :: cs, w =>
    let r := BerCall.attempt B w c
    let rest := run_all B cs r.1
    (rest.1, r.2.toList ++ rest.2)

/-- Propagation as the spec words it: the calls are made in order, the first
failure ends the run and is returned as it is; with no failure the final state
is returned. -/
def run_until_failure {ε ω : Type} (B : FallibleBer ε ω) : List BerCall → ω → Except ε ω
  | [], w => Except.ok w
  | c :: cs, w =>
    match BerCall.attempt B w c with
    | (_, some e) => Except.error e
    | (w1, none) => run_until_failure B cs w1

/-- Streams of bounded capacity under a byte encoding: a call handed a stream whose
bytes would not fit leaves the streams as they are and reports itself as the
error; an integer call, handed no stream, writes none and does not fail. -/
def BerEncoding.bounded (E : BerEncoding) (capacity : Nat) :
    FallibleBer BerCall (Nat → STREAM) :=
  let write := fun (w : Nat → STREAM) (s : Nat) (c : BerCall) =>
    if (w s).length + (E.bytes c).length ≤ capacity then
      (append_at w s (E.bytes c), (none : Option BerCall))
    else (w, some c)
  { ber_write_application_tag := fun w s tag length =>
      write w s (BerCall.application_tag s tag length)
    ber_write_octet_string := fun w s oct_str length =>
      write w s (BerCall.octet_string s oct_str length)
    ber_write_boolean := fun w s value => write w s (BerCall.boolean s value)
    ber_write_integer := fun w _ => (w, none) }

/-! ## Memory

The functions of `mcs.c` receive pointers.  To speak of what a call leaves
untouched, the same code is also read over a memory of objects by address. -/

/-- Modelled from the spec: the memory the functions work on through pointers; the
allocator and the stream type belong to the utility library (absent).  An address
is a natural number, `0` the null pointer.  `modules` holds the MCS modules in
storage obtained from the allocator and not released, `streams` the streams with
the bytes written into each, `transports` tells which addresses hold a live
transport.  `callingDomainSelector` and `calledDomainSelector` are the bytes held
by the two global arrays of one byte, which are not `const`. -/
structure Memory where
  modules : Nat → Option rdpMcs
  streams : Nat → Option STREAM
  transports : Nat → Bool
  callingDomainSelector : Nat
  calledDomainSelector : Nat

/-- Modelled from the spec: `xzalloc` on the memory.  The address the allocator
would hand out is `slot`, `none` when no storage can be obtained; the storage is
zeroed.  The null pointer is returned on failure and the memory is left as it
is. -/
def Memory.xzalloc (m : Memory) (slot : Option Nat) : Memory × Nat :=
  match slot with
  | none => (m, 0)
  | some p =>
    if p ≠ 0 ∧ m.modules p = none then
      ({ m with modules := Function.update m.modules p (some rdpMcs.zero) }, p)
    else (m, 0)

/-- Modelled from the spec: `xfree` on the memory releases the storage at a live
address and does nothing for the null pointer; releasing storage that is not
live (a second release, a stray address) is a fault, the result `none`. -/
def Memory.xfree (m : Memory) (p : Nat) : Option Memory :=
  if p = 0 then some m
  else if (m.modules p).isSome then
    some { m with modules := Function.update m.modules p none }
  else none

/-- An assignment through a pointer to a module. -/
def Memory.assign (m : Memory) (mcs : Nat) (f : rdpMcs → rdpMcs) : Memory :=
  { m with modules := fun a => if a = mcs then (m.modules a).map f else m.modules a }

/-- The function `mcs_new` on the memory: returns the memory after the call and the
pointer `mcs`. -/
def Memory.mcs_new (m : Memory) (slot : Option Nat) (transport : Nat) : Memory × Nat :=
  let r := m.xzalloc slot
  let m := r.1
  let mcs := r.2
  if mcs ≠ 0 then
    let m := m.assign mcs (fun c => { c with transport := transport })
    let m := m.assign mcs (fun c => { c with
      targetParameters := mcs_init_domain_parameters c.targetParameters 34 2 0 0xFFFF })
    let m := m.assign mcs (fun c => { c with
      minimumParameters := mcs_init_domain_parameters c.minimumParameters 1 1 1 0x420 })
    let m := m.assign mcs (fun c => { c with
      maximumParameters :=
        mcs_init_domain_parameters c.maximumParameters 0xFFFF 0xFC17 0xFFFF 0xFFFF })
    (m, mcs)
  else
    (m, mcs)

/-- The function `mcs_free` on the memory; `none` is a fault. -/
def Memory.mcs_free (m : Memory) (mcs : Nat) : Option Memory :=
  if mcs ≠ 0 then
    m.xfree mcs
  else
    some m

/-- The memory with the stream at `s` holding the bytes `b`. -/
def Memory.put (m : Memory) (s : Nat) (b : STREAM) : Memory :=
  { m with streams := Function.update m.streams s (some b) }

/-- Modelled from the spec: what a BER primitive does to the memory when it is
handed the stream at the address `s`: it appends bytes to that stream; a pointer
to no stream is a fault. -/
def Memory.write (m : Memory) (s : Nat) (bytes : List Nat) : Option Memory :=
  match m.streams s with
  | none => none
  | some b => some (m.put s (b ++ bytes))

/-- Modelled from the spec: the call `ber_write_integer` on the memory, for a value
read through a pointer: `field` reads it from the module at `mcs`; a pointer to
no module is a fault.  The call is handed no stream: its bytes go to the stream
`d`, to none when `d` is `none`. -/
def Memory.ber_write_integer (E : BerEncoding) (d : Option Nat) (m : Memory) (mcs : Nat)
    (field : rdpMcs → Nat) : Option Memory :=
  match m.modules mcs with
  | none => none
  | some c =>
    match d with
    | none => some m
    | some a => m.write a (E.integer (field c))

/-- Modelled from the spec: the call `ber_write_octet_string` on the memory, for the
bytes of the stream at `oct_str`; a pointer to no stream is a fault. -/
def Memory.ber_write_octet_string (E : BerEncoding) (m : Memory) (s : Nat) (oct_str : Nat)
    (length : Int) : Option Memory :=
  match m.streams oct_str with
  | none => none
  | some data => m.write s (E.octet_string data length)

set_option linter.unusedVariables false in
/-- The function `mcs_write_domain_parameters` on the memory.  The record is reached
through the module pointer `mcs` and the member `role`, as `&mcs->targetParameters`
does; each field is read when its call is made.  The stream `s` is received and
not used. -/
def Memory.mcs_write_domain_parameters (E : BerEncoding) (d : Option Nat) (m : Memory)
    (s : Nat) (mcs : Nat) (role : rdpMcs → DOMAIN_PARAMETERS) : Option Memory := do
  let m ← m.ber_write_integer E d mcs fun c => (role c).maxChannelIds
  let m ← m.ber_write_integer E d mcs fun c => (role c).maxUserIds
  let m ← m.ber_write_integer E d mcs fun c => (role c).maxTokenIds
  let m ← m.ber_write_integer E d mcs fun c => (role c).numPriorities
  let m ← m.ber_write_integer E d mcs fun c => (role c).minThroughput
  let m ← m.ber_write_integer E d mcs fun c => (role c).maxHeight
  let m ← m.ber_write_integer E d mcs fun c => (role c).maxMCSPDUsize
  let m ← m.ber_write_integer E d mcs fun c => (role c).protocolVersion
  pure m

/-- The function `mcs_write_connect_initial` on the memory: `s`, `mcs` and
`user_data` are pointers; the two selectors are read from the globals, one byte
each (`sizeof` is 1); the bytes of `user_data` are read when the last call is
made. -/
def Memory.mcs_write_connect_initial (E : BerEncoding) (d : Option Nat) (m : Memory)
    (s : Nat) (mcs : Nat) (user_data : Nat) : Option Memory := do
  let gcc_CCrq_length : Int := toInt32 (stream_get_length (← m.streams user_data))
  let length : Int := toInt32 (gcc_CCrq_length + 3 * 34 + 13)
  let m ← m.write s (E.application_tag MCS_TYPE_CONNECT_INITIAL length)
  let m ← m.write s (E.octet_string [m.callingDomainSelector] 1)
  let m ← m.write s (E.octet_string [m.calledDomainSelector] 1)
  let m ← m.write s (E.boolean true)
  let m ← m.mcs_write_domain_parameters E d s mcs rdpMcs.targetParameters
  let m ← m.mcs_write_domain_parameters E d s mcs rdpMcs.minimumParameters
  let m ← m.mcs_write_domain_parameters E d s mcs rdpMcs.maximumParameters
  let m ← m.ber_write_octet_string E s user_data gcc_CCrq_length
  pure m

/-- A memory with no module, the stream `[9]` at address `1`, an empty stream at
address `2`, a live transport at address `7` and the globals as initialised. -/
def Memory.sample : Memory :=
  { modules := fun _ => none
    streams := fun a => if a = 1 then some [9] else if a = 2 then some [] else none
    transports := fun a => a == 7
    callingDomainSelector := 0x01
    calledDomainSelector := 0x01 }

/-- The sample memory after `mcs_new` for the transport `7`, the allocator handing
out the address `8`. -/
def Memory.sample_with_module : Memory :=
  (Memory.sample.mcs_new (some 8) 7).1

/-! ## Derived notions -/

/-- The context `mcs_new` returns for a transport when storage is available. -/
def fresh_context (transport : Nat) : rdpMcs :=
  (mcs_new true transport).getD rdpMcs.zero

/-- The eight fields of a record, in the order of the grammar. -/
def DOMAIN_PARAMETERS.fields (dp : DOMAIN_PARAMETERS) : List Nat :=
  [dp.maxChannelIds, dp.maxUserIds, dp.maxTokenIds, dp.numPriorities,
    dp.minThroughput, dp.maxHeight, dp.maxMCSPDUsize, dp.protocolVersion]

/-- The bytes the eight integer calls of a record add to the stream at `s`: the
eight encodings when the integer calls reach `s`, nothing otherwise. -/
def BerEncoding.integers_at (E : BerEncoding) (d : Option Nat) (s : Nat)
    (dp : DOMAIN_PARAMETERS) : List Nat :=
  if d = some s then (dp.fields.map E.integer).flatten else []

/-- The length the writer declares: the length argument of its first recorded call,
when that call is an application tag. -/
def connect_initial_declared (mcs : rdpMcs) (user_data : STREAM) : Option Int :=
  match (mcs_write_connect_initial BerCall.log [] 0 mcs user_data).head? with
  | some (BerCall.application_tag _ _ length) => some length
  | _ => none

/-- The bytes the stream at `s` holds after the writer ran on streams that were all
empty. -/
def connect_initial_output (E : BerEncoding) (d : Option Nat) (s : Nat) (mcs : rdpMcs)
    (user_data : STREAM) : List Nat :=
  mcs_write_connect_initial (E.primitives d) (fun _ => []) s mcs user_data s

/-- The bytes of the output after the encoding of the first call, the
application-tag header. -/
def connect_initial_content (E : BerEncoding) (d : Option Nat) (s : Nat) (mcs : rdpMcs)
    (user_data : STREAM) : List Nat :=
  (connect_initial_output E d s mcs user_data).drop
    (((mcs_write_connect_initial BerCall.log [] s mcs user_data).head?.map
      fun c => (E.bytes c).length).getD 0)

/-- Whether a recorded call is a call of the application-tag primitive. -/
def BerCall.isApplicationTag : BerCall → Bool
  | BerCall.application_tag _ _ _ => true
  | _ => false

/-- The bytes the writer on the memory adds to a sink that held `b`, up to its last
call: the application tag for a userData of `n` bytes, the two selectors read
from the globals, the boolean, and the integers that reach the sink. -/
def Memory.connect_initial_before_user_data (E : BerEncoding) (d : Option Nat) (m : Memory)
    (s : Nat) (c : rdpMcs) (n : Nat) (b : STREAM) : List Nat :=
  b ++ E.application_tag MCS_TYPE_CONNECT_INITIAL (toInt32 (toInt32 n + 3 * 34 + 13)) ++
    E.octet_string [m.callingDomainSelector] 1 ++
    E.octet_string [m.calledDomainSelector] 1 ++ E.boolean true ++
    E.integers_at d s c.targetParameters ++ E.integers_at d s c.minimumParameters ++
    E.integers_at d s c.maximumParameters

/-! ## Auxiliary facts -/

/-- A value in the range of `int` is stored unchanged. -/
theorem toInt32_of_range (x : Int) (h0 : -2147483648 ≤ x) (h1 : x ≤ INT_MAX) :
    toInt32 x = x := by
  unfold INT_MAX at h1
  unfold toInt32
  omega

/-- The stored value always lies in the range of `int`. -/
theorem toInt32_range (x : Int) : -2147483648 ≤ toInt32 x ∧ toInt32 x ≤ INT_MAX := by
  unfold INT_MAX toInt32
  omega

/-- A measured length in the range of `int` is stored unchanged. -/
theorem toInt32_length (u : STREAM) (h : u.length ≤ 2147483647) :
    toInt32 (stream_get_length u) = (u.length : Int) := by
  apply toInt32_of_range <;> unfold stream_get_length <;> try unfold INT_MAX
  all_goals omega

/-- The call log of `mcs_write_domain_parameters`: eight integer calls, none of
them with a stream, whatever stream the function was handed. -/
theorem domain_parameters_log (w : List BerCall) (s : Nat) (dp : DOMAIN_PARAMETERS) :
    mcs_write_domain_parameters BerCall.log w s dp =
      w ++ [BerCall.integer dp.maxChannelIds, BerCall.integer dp.maxUserIds,
        BerCall.integer dp.maxTokenIds, BerCall.integer dp.numPriorities,
        BerCall.integer dp.minThroughput, BerCall.integer dp.maxHeight,
        BerCall.integer dp.maxMCSPDUsize, BerCall.integer dp.protocolVersion] := by
  simp [mcs_write_domain_parameters, BerCall.log]

/-- The call log of `mcs_write_connect_initial`. -/
theorem connect_initial_log (w : List BerCall) (s : Nat) (mcs : rdpMcs) (u : STREAM) :
    mcs_write_connect_initial BerCall.log w s mcs u =
      w ++ ([BerCall.application_tag s MCS_TYPE_CONNECT_INITIAL
              (toInt32 (toInt32 (stream_get_length u) + 3 * 34 + 13)),
            BerCall.octet_string s callingDomainSelector 1,
            BerCall.octet_string s calledDomainSelector 1,
            BerCall.boolean s true]
        ++ mcs_write_domain_parameters BerCall.log [] s mcs.targetParameters
        ++ mcs_write_domain_parameters BerCall.log [] s mcs.minimumParameters
        ++ mcs_write_domain_parameters BerCall.log [] s mcs.maximumParameters
        ++ [BerCall.octet_string s u (toInt32 (stream_get_length u))]) := by
  unfold mcs_write_connect_initial
  simp only [domain_parameters_log]
  simp [BerCall.log, callingDomainSelector, calledDomainSelector]

/-- Any primitives give the result of replaying the call log of the domain
parameters on them. -/
theorem domain_parameters_replay {ω : Type} (B : BerPrimitives ω) (w : ω) (s : Nat)
    (dp : DOMAIN_PARAMETERS) :
    mcs_write_domain_parameters B w s dp =
      (mcs_write_domain_parameters BerCall.log [] s dp).foldl (BerCall.replay B) w := by
  rw [domain_parameters_log]
  simp [mcs_write_domain_parameters, BerCall.replay]

/-- Any primitives give the result of replaying the call log of the Connect-Initial
writer on them. -/
theorem connect_initial_replay {ω : Type} (B : BerPrimitives ω) (w : ω) (s : Nat)
    (mcs : rdpMcs) (u : STREAM) :
    mcs_write_connect_initial B w s mcs u =
      (mcs_write_connect_initial BerCall.log [] s mcs u).foldl (BerCall.replay B) w := by
  rw [connect_initial_log]
  simp only [domain_parameters_log]
  simp [mcs_write_connect_initial, mcs_write_domain_parameters, BerCall.replay,
    callingDomainSelector, calledDomainSelector]

/-- One replayed call adds to the stream at `s` the bytes `bytes_at` gives. -/
theorem replay_bytes_at (E : BerEncoding) (d : Option Nat) (w : Nat → STREAM) (s : Nat)
    (c : BerCall) :
    BerCall.replay (E.primitives d) w c s = w s ++ E.bytes_at d s c := by
  cases c with
  | application_tag h tag length =>
    by_cases hs : s = h <;>
      simp [BerCall.replay, BerEncoding.primitives, append_at, BerEncoding.bytes_at, hs]
  | octet_string h oct_str length =>
    by_cases hs : s = h <;>
      simp [BerCall.replay, BerEncoding.primitives, append_at, BerEncoding.bytes_at, hs]
  | boolean h value =>
    by_cases hs : s = h <;>
      simp [BerCall.replay, BerEncoding.primitives, append_at, BerEncoding.bytes_at, hs]
  | integer value =>
    cases d with
    | none => simp [BerCall.replay, BerEncoding.primitives, BerEncoding.bytes_at]
    | some a =>
      by_cases hs : s = a
      · simp [BerCall.replay, BerEncoding.primitives, append_at, BerEncoding.bytes_at, hs]
      · have hs2 : ¬ a = s := fun h => hs h.symm
        simp [BerCall.replay, BerEncoding.primitives, append_at, BerEncoding.bytes_at, hs, hs2]

/-- A replayed list of calls adds to the stream at `s` the bytes of its calls, in
order. -/
theorem replay_list_bytes_at (E : BerEncoding) (d : Option Nat) (s : Nat)
    (calls : List BerCall) (w : Nat → STREAM) :
    calls.foldl (BerCall.replay (E.primitives d)) w s =
      w s ++ (calls.map (E.bytes_at d s)).flatten := by
  induction calls generalizing w with
  | nil => simp
  | cons c cs ih =>
    simp only [List.foldl_cons, List.map_cons, List.flatten_cons]
    rw [ih, replay_bytes_at, List.append_assoc]

/-- The bytes `mcs_write_domain_parameters` adds to the stream at `s` under a byte
encoding: the eight encodings when the integer calls reach `s`, nothing
otherwise. -/
theorem domain_parameters_bytes (E : BerEncoding) (d : Option Nat) (w : Nat → STREAM)
    (s : Nat) (dp : DOMAIN_PARAMETERS) :
    mcs_write_domain_parameters (E.primitives d) w s dp s = w s ++ E.integers_at d s dp := by
  rw [domain_parameters_replay, replay_list_bytes_at, domain_parameters_log]
  by_cases h : d = some s <;>
    simp [BerEncoding.bytes_at, BerEncoding.integers_at, DOMAIN_PARAMETERS.fields, h]

/-- The bytes `mcs_write_connect_initial` adds to the stream at `s` under a byte
encoding. -/
theorem connect_initial_bytes (E : BerEncoding) (d : Option Nat) (w : Nat → STREAM)
    (s : Nat) (mcs : rdpMcs) (u : STREAM) :
    mcs_write_connect_initial (E.primitives d) w s mcs u s =
      w s ++ (E.application_tag MCS_TYPE_CONNECT_INITIAL
              (toInt32 (toInt32 (stream_get_length u) + 3 * 34 + 13)) ++
        E.octet_string [0x01] 1 ++ E.octet_string [0x01] 1 ++ E.boolean true ++
        E.integers_at d s mcs.targetParameters ++
        E.integers_at d s mcs.minimumParameters ++
        E.integers_at d s mcs.maximumParameters ++
        E.octet_string u (toInt32 (stream_get_length u))) := by
  rw [connect_initial_replay, replay_list_bytes_at, connect_initial_log]
  simp only [domain_parameters_log]
  by_cases h : d = some s <;>
    simp [BerEncoding.bytes_at, BerEncoding.integers_at, DOMAIN_PARAMETERS.fields, h,
      callingDomainSelector, calledDomainSelector]

/-! ## The declared length -/

/-- Claim C1, amended: for every context and every userData buffer of length `n`
with `n + 115` in the range of `int` (`n ≤ 2147483532`, the empty buffer
included), the only call of the application-tag primitive is the first call, for
tag `MCS_TYPE_CONNECT_INITIAL`, and the length it receives is exactly
`n + 3*34 + 13`, whatever the domain parameters of the context. -/
theorem connect_initial_declared_length (s : Nat) (mcs : rdpMcs) (u : STREAM)
    (h : u.length ≤ 2147483532) :
    (mcs_write_connect_initial BerCall.log [] s mcs u).head? =
        some (BerCall.application_tag s MCS_TYPE_CONNECT_INITIAL (u.length + 3 * 34 + 13)) ∧
    (mcs_write_connect_initial BerCall.log [] s mcs u).filter BerCall.isApplicationTag =
        [BerCall.application_tag s MCS_TYPE_CONNECT_INITIAL (u.length + 3 * 34 + 13)] ∧
    (u.length : Int) + 3 * 34 + 13 = u.length + 115 := by
  have h1 := toInt32_length u (by omega)
  have h2 : toInt32 ((u.length : Int) + 3 * 34 + 13) = (u.length : Int) + 3 * 34 + 13 := by
    apply toInt32_of_range <;> try unfold INT_MAX
    all_goals omega
  rw [connect_initial_log, h1, h2]
  refine ⟨by simp, ?_, by ring⟩
  simp [domain_parameters_log, List.filter_cons, BerCall.isApplicationTag]

/-- Witness of `connect_initial_declared_length`: the empty payload on the all-zero
context, the sink at address `2`. -/
theorem connect_initial_declared_length_witness :
    (mcs_write_connect_initial BerCall.log [] 2 rdpMcs.zero []).head? =
        some (BerCall.application_tag 2 MCS_TYPE_CONNECT_INITIAL
          (([] : STREAM).length + 3 * 34 + 13)) ∧
    (mcs_write_connect_initial BerCall.log [] 2 rdpMcs.zero []).filter
        BerCall.isApplicationTag =
        [BerCall.application_tag 2 MCS_TYPE_CONNECT_INITIAL
          (([] : STREAM).length + 3 * 34 + 13)] ∧
    ((([] : STREAM).length : Nat) : Int) + 3 * 34 + 13 = ([] : STREAM).length + 115 :=
  connect_initial_declared_length 2 rdpMcs.zero [] (by decide)

/-- Claim C1 as stated fails: for a userData buffer of `2147483533` bytes the sum
`n + 3*34 + 13` is `2147483648`, which no `int` holds; the application-tag
primitive receives `-2147483648` instead. -/
theorem connect_initial_declared_length_overflow :
    (mcs_write_connect_initial BerCall.log [] 2 rdpMcs.zero
        (List.replicate 2147483533 0)).head? =
      some (BerCall.application_tag 2 MCS_TYPE_CONNECT_INITIAL (-2147483648)) ∧
    (mcs_write_connect_initial BerCall.log [] 2 rdpMcs.zero
        (List.replicate 2147483533 0)).head? ≠
      some (BerCall.application_tag 2 MCS_TYPE_CONNECT_INITIAL
        ((List.replicate 2147483533 0).length + 3 * 34 + 13)) := by
  have h : (mcs_write_connect_initial BerCall.log [] 2 rdpMcs.zero
        (List.replicate 2147483533 0)).head? =
      some (BerCall.application_tag 2 MCS_TYPE_CONNECT_INITIAL (-2147483648)) := by
    rw [connect_initial_log]
    simp only [stream_get_length, List.length_replicate, List.nil_append, List.cons_append,
      List.head?_cons]
    norm_num [toInt32]
  refine ⟨h, ?_⟩
  rw [h, List.length_replicate]
  intro hc
  simp at hc

/-! ## Field order of the two writers -/

/-- Claim C2 as stated fails for a userData buffer of `2147483648` bytes: the
measured length does not fit the `int` it is stored in, the last call asks for
`-2147483648` bytes of the buffer, and the octet string `ber` then writes is the
empty one, `04 00`, not one that holds the userData bytes. -/
theorem connect_initial_user_data_out_of_range :
    (List.replicate 2147483648 0).length = 2147483648 ∧
    (mcs_write_connect_initial BerCall.log [] 2 rdpMcs.zero
        (List.replicate 2147483648 0)).getLast? =
      some (BerCall.octet_string 2 (List.replicate 2147483648 0) (-2147483648)) ∧
    (∀ integer : Nat → List Nat,
      (ber integer).octet_string (List.replicate 2147483648 0) (-2147483648) = [0x04, 0x00]) := by
  refine ⟨List.length_replicate _ _, ?_, fun integer => rfl⟩
  rw [connect_initial_log]
  simp only [List.nil_append, ← List.append_assoc, List.getLast?_append,
    List.getLast?_singleton, stream_get_length, List.length_replicate]
  have h : toInt32 ((2147483648 : Nat) : Int) = -2147483648 := by decide
  rw [h]
  rfl

/-- Claim C2, amended: for every context, every sink and every userData of at most
`2147483647` bytes, `mcs_write_connect_initial` makes exactly these calls, in
this order: the application tag for Connect-Initial with the computed length,
the octet string `[0x01]`, the octet string `[0x01]` and the boolean true, each
on the sink; the 8 integers of target, of minimum and of maximum, each call with
the value alone; the octet string of the userData bytes with their full length,
on the sink.  Under any byte encoding the sink receives, after what it held, the
encodings of the application tag, the two selectors and the boolean, then the 24
integer encodings when the integer calls reach the sink and nothing when they do
not, then the userData octet string. -/
theorem connect_initial_layout (E : BerEncoding) (d : Option Nat) (w : Nat → STREAM)
    (s : Nat) (mcs : rdpMcs) (u : STREAM) (h : u.length ≤ 2147483647) :
    mcs_write_connect_initial BerCall.log [] s mcs u =
      [BerCall.application_tag s MCS_TYPE_CONNECT_INITIAL
          (toInt32 ((u.length : Int) + 3 * 34 + 13)),
        BerCall.octet_string s [0x01] 1,
        BerCall.octet_string s [0x01] 1,
        BerCall.boolean s true,
        BerCall.integer mcs.targetParameters.maxChannelIds,
        BerCall.integer mcs.targetParameters.maxUserIds,
        BerCall.integer mcs.targetParameters.maxTokenIds,
        BerCall.integer mcs.targetParameters.numPriorities,
        BerCall.integer mcs.targetParameters.minThroughput,
        BerCall.integer mcs.targetParameters.maxHeight,
        BerCall.integer mcs.targetParameters.maxMCSPDUsize,
        BerCall.integer mcs.targetParameters.protocolVersion,
        BerCall.integer mcs.minimumParameters.maxChannelIds,
        BerCall.integer mcs.minimumParameters.maxUserIds,
        BerCall.integer mcs.minimumParameters.maxTokenIds,
        BerCall.integer mcs.minimumParameters.numPriorities,
        BerCall.integer mcs.minimumParameters.minThroughput,
        BerCall.integer mcs.minimumParameters.maxHeight,
        BerCall.integer mcs.minimumParameters.maxMCSPDUsize,
        BerCall.integer mcs.minimumParameters.protocolVersion,
        BerCall.integer mcs.maximumParameters.maxChannelIds,
        BerCall.integer mcs.maximumParameters.maxUserIds,
        BerCall.integer mcs.maximumParameters.maxTokenIds,
        BerCall.integer mcs.maximumParameters.numPriorities,
        BerCall.integer mcs.maximumParameters.minThroughput,
        BerCall.integer mcs.maximumParameters.maxHeight,
        BerCall.integer mcs.maximumParameters.maxMCSPDUsize,
        BerCall.integer mcs.maximumParameters.protocolVersion,
        BerCall.octet_string s u (u.length : Int)] ∧
    mcs_write_connect_initial (E.primitives d) w s mcs u s =
      w s ++ (E.application_tag MCS_TYPE_CONNECT_INITIAL
              (toInt32 ((u.length : Int) + 3 * 34 + 13)) ++
        E.octet_string [0x01] 1 ++
        E.octet_string [0x01] 1 ++
        E.boolean true ++
        (if d = some s then
          (E.integer mcs.targetParameters.maxChannelIds ++
            E.integer mcs.targetParameters.maxUserIds ++
            E.integer mcs.targetParameters.maxTokenIds ++
            E.integer mcs.targetParameters.numPriorities ++
            E.integer mcs.targetParameters.minThroughput ++
            E.integer mcs.targetParameters.maxHeight ++
            E.integer mcs.targetParameters.maxMCSPDUsize ++
            E.integer mcs.targetParameters.protocolVersion) ++
          (E.integer mcs.minimumParameters.maxChannelIds ++
            E.integer mcs.minimumParameters.maxUserIds ++
            E.integer mcs.minimumParameters.maxTokenIds ++
            E.integer mcs.minimumParameters.numPriorities ++
            E.integer mcs.minimumParameters.minThroughput ++
            E.integer mcs.minimumParameters.maxHeight ++
            E.integer mcs.minimumParameters.maxMCSPDUsize ++
            E.integer mcs.minimumParameters.protocolVersion) ++
          (E.integer mcs.maximumParameters.maxChannelIds ++
            E.integer mcs.maximumParameters.maxUserIds ++
            E.integer mcs.maximumParameters.maxTokenIds ++
            E.integer mcs.maximumParameters.numPriorities ++
            E.integer mcs.maximumParameters.minThroughput ++
            E.integer mcs.maximumParameters.maxHeight ++
            E.integer mcs.maximumParameters.maxMCSPDUsize ++
            E.integer mcs.maximumParameters.protocolVersion)
        else []) ++
        E.octet_string u (u.length : Int)) := by
  have h1 := toInt32_length u h
  constructor
  · rw [connect_initial_log, h1]
    simp only [domain_parameters_log]
    simp [callingDomainSelector, calledDomainSelector]
  · rw [connect_initial_bytes, h1]
    by_cases hd : d = some s <;>
      simp [BerEncoding.integers_at, DOMAIN_PARAMETERS.fields, hd]

/-- Witness of `connect_initial_layout`: a three-byte payload on the all-zero
context, the sink at address `2` of empty streams, an encoding of one byte per
call. -/
theorem connect_initial_layout_witness :
    ([1, 2, 3] : STREAM).length ≤ 2147483647 ∧
    (mcs_write_connect_initial BerCall.log [] 2 rdpMcs.zero [1, 2, 3]).getLast? =
      some (BerCall.octet_string 2 [1, 2, 3] 3) ∧
    (mcs_write_connect_initial BerCall.log [] 2 rdpMcs.zero [1, 2, 3]).length = 29 :=
  ⟨by decide,
    by rw [(connect_initial_layout (ber fun v => [v]) none (fun _ => []) 2 rdpMcs.zero [1, 2, 3]
      (by decide)).1]; rfl,
    by rw [(connect_initial_layout (ber fun v => [v]) none (fun _ => []) 2 rdpMcs.zero [1, 2, 3]
      (by decide)).1]; rfl⟩

/-- Claim C3, the code at any record, the all-zero one included: the function
makes eight calls of the integer primitive in the order maxChannelIds,
maxUserIds, maxTokenIds, numPriorities, minThroughput, maxHeight, maxMCSPDUsize,
protocolVersion, but hands none of them the stream: for any primitives the
result is the same whatever stream `s` the function receives, and with
primitives that append to the stream they are handed and to no other, the
streams, the one at `s` among them, are after the call as they were before. -/
theorem domain_parameters_eight_integers {ω : Type} (B : BerPrimitives ω) (w : ω)
    (E : BerEncoding) (v : Nat → STREAM) (log : List BerCall) (s s2 : Nat)
    (dp : DOMAIN_PARAMETERS) :
    mcs_write_domain_parameters BerCall.log log s dp =
      log ++ [BerCall.integer dp.maxChannelIds, BerCall.integer dp.maxUserIds,
        BerCall.integer dp.maxTokenIds, BerCall.integer dp.numPriorities,
        BerCall.integer dp.minThroughput, BerCall.integer dp.maxHeight,
        BerCall.integer dp.maxMCSPDUsize, BerCall.integer dp.protocolVersion] ∧
    (mcs_write_domain_parameters BerCall.log [] s dp).length = 8 ∧
    mcs_write_domain_parameters B w s dp = mcs_write_domain_parameters B w s2 dp ∧
    mcs_write_domain_parameters (E.primitives none) v s dp = v ∧
    mcs_write_domain_parameters (E.primitives none) v s DOMAIN_PARAMETERS.zero s = v s := by
  refine ⟨domain_parameters_log log s dp, ?_, rfl, rfl, rfl⟩
  rw [domain_parameters_log]
  rfl

/-! ## Defaults seeded by `mcs_new` -/

/-- Claim C4: every context returned by `mcs_new` has (maxChannelIds, maxUserIds,
maxTokenIds, maxMCSPDUsize) equal to (34, 2, 0, 0xFFFF) in target, (1, 1, 1, 0x420)
in minimum and (0xFFFF, 0xFC17, 0xFFFF, 0xFFFF) in maximum. -/
theorem mcs_new_defaults (available : Bool) (transport : Nat) (mcs : rdpMcs)
    (h : mcs_new available transport = some mcs) :
    (mcs.targetParameters.maxChannelIds = 34 ∧ mcs.targetParameters.maxUserIds = 2 ∧
      mcs.targetParameters.maxTokenIds = 0 ∧ mcs.targetParameters.maxMCSPDUsize = 0xFFFF) ∧
    (mcs.minimumParameters.maxChannelIds = 1 ∧ mcs.minimumParameters.maxUserIds = 1 ∧
      mcs.minimumParameters.maxTokenIds = 1 ∧ mcs.minimumParameters.maxMCSPDUsize = 0x420) ∧
    (mcs.maximumParameters.maxChannelIds = 0xFFFF ∧
      mcs.maximumParameters.maxUserIds = 0xFC17 ∧
      mcs.maximumParameters.maxTokenIds = 0xFFFF ∧
      mcs.maximumParameters.maxMCSPDUsize = 0xFFFF) := by
  cases available with
  | false => simp [mcs_new, xzalloc] at h
  | true =>
    simp only [mcs_new, xzalloc, if_true, Option.some.injEq] at h
    subst h
    simp [mcs_init_domain_parameters]

/-- Witness of `mcs_new_defaults`: allocation succeeds for the transport `7`. -/
theorem mcs_new_defaults_witness :
    mcs_new true 7 = some (fresh_context 7) ∧
    ((fresh_context 7).targetParameters.maxChannelIds = 34 ∧
      (fresh_context 7).targetParameters.maxUserIds = 2 ∧
      (fresh_context 7).targetParameters.maxTokenIds = 0 ∧
      (fresh_context 7).targetParameters.maxMCSPDUsize = 0xFFFF) ∧
    ((fresh_context 7).minimumParameters.maxChannelIds = 1 ∧
      (fresh_context 7).minimumParameters.maxUserIds = 1 ∧
      (fresh_context 7).minimumParameters.maxTokenIds = 1 ∧
      (fresh_context 7).minimumParameters.maxMCSPDUsize = 0x420) ∧
    ((fresh_context 7).maximumParameters.maxChannelIds = 0xFFFF ∧
      (fresh_context 7).maximumParameters.maxUserIds = 0xFC17 ∧
      (fresh_context 7).maximumParameters.maxTokenIds = 0xFFFF ∧
      (fresh_context 7).maximumParameters.maxMCSPDUsize = 0xFFFF) :=
  ⟨by decide, mcs_new_defaults true 7 (fresh_context 7) (by decide)⟩

/-- Claim C5: `mcs_init_domain_parameters` leaves numPriorities, minThroughput,
maxHeight and protocolVersion as they were and sets the other four fields to its
arguments; hence in every context returned by `mcs_new`, whose storage starts
zeroed, these four fields are 0 in each of target, minimum and maximum. -/
theorem mcs_new_unset_fields_zero (available : Bool) (transport : Nat) (mcs : rdpMcs)
    (h : mcs_new available transport = some mcs) :
    (∀ (dp : DOMAIN_PARAMETERS) (a b c d : Nat),
      mcs_init_domain_parameters dp a b c d =
        { maxChannelIds := a, maxUserIds := b, maxTokenIds := c,
          numPriorities := dp.numPriorities, minThroughput := dp.minThroughput,
          maxHeight := dp.maxHeight, maxMCSPDUsize := d,
          protocolVersion := dp.protocolVersion }) ∧
    (mcs.targetParameters.numPriorities = 0 ∧ mcs.targetParameters.minThroughput = 0 ∧
      mcs.targetParameters.maxHeight = 0 ∧ mcs.targetParameters.protocolVersion = 0) ∧
    (mcs.minimumParameters.numPriorities = 0 ∧ mcs.minimumParameters.minThroughput = 0 ∧
      mcs.minimumParameters.maxHeight = 0 ∧ mcs.minimumParameters.protocolVersion = 0) ∧
    (mcs.maximumParameters.numPriorities = 0 ∧ mcs.maximumParameters.minThroughput = 0 ∧
      mcs.maximumParameters.maxHeight = 0 ∧ mcs.maximumParameters.protocolVersion = 0) := by
  refine ⟨fun dp a b c d => rfl, ?_⟩
  cases available with
  | false => simp [mcs_new, xzalloc] at h
  | true =>
    simp only [mcs_new, xzalloc, if_true, Option.some.injEq] at h
    subst h
    simp [mcs_init_domain_parameters, rdpMcs.zero, DOMAIN_PARAMETERS.zero]

/-- Witness of `mcs_new_unset_fields_zero`: the context created for the transport
`7`. -/
theorem mcs_new_unset_fields_zero_witness :
    mcs_new true 7 = some (fresh_context 7) ∧
    ((fresh_context 7).targetParameters.numPriorities = 0 ∧
      (fresh_context 7).targetParameters.minThroughput = 0 ∧
      (fresh_context 7).targetParameters.maxHeight = 0 ∧
      (fresh_context 7).targetParameters.protocolVersion = 0) :=
  ⟨by decide, (mcs_new_unset_fields_zero true 7 (fresh_context 7) (by decide)).2.1⟩

/-! ## The bytes after the header -/

/-- The parameters of a context returned by `mcs_new` are those of `fresh_context`. -/
theorem mcs_new_parameters (available : Bool) (transport : Nat) (mcs : rdpMcs)
    (h : mcs_new available transport = some mcs) :
    mcs.transport = transport ∧
    mcs.targetParameters = (fresh_context 0).targetParameters ∧
    mcs.minimumParameters = (fresh_context 0).minimumParameters ∧
    mcs.maximumParameters = (fresh_context 0).maximumParameters := by
  cases available with
  | false => simp [mcs_new, xzalloc] at h
  | true =>
    simp only [mcs_new, xzalloc, if_true, Option.some.injEq] at h
    subst h
    exact ⟨rfl, rfl, rfl, rfl⟩

/-- The output on empty streams, under any byte encoding. -/
theorem connect_initial_output_eq (E : BerEncoding) (d : Option Nat) (s : Nat)
    (mcs : rdpMcs) (u : STREAM) :
    connect_initial_output E d s mcs u =
      E.application_tag MCS_TYPE_CONNECT_INITIAL
          (toInt32 (toInt32 (stream_get_length u) + 3 * 34 + 13)) ++
        E.octet_string [0x01] 1 ++ E.octet_string [0x01] 1 ++ E.boolean true ++
        E.integers_at d s mcs.targetParameters ++
        E.integers_at d s mcs.minimumParameters ++
        E.integers_at d s mcs.maximumParameters ++
        E.octet_string u (toInt32 (stream_get_length u)) := by
  unfold connect_initial_output
  rw [connect_initial_bytes]
  simp

/-- The content after the header, under any byte encoding. -/
theorem connect_initial_content_eq (E : BerEncoding) (d : Option Nat) (s : Nat)
    (mcs : rdpMcs) (u : STREAM) :
    connect_initial_content E d s mcs u =
      E.octet_string [0x01] 1 ++ E.octet_string [0x01] 1 ++ E.boolean true ++
        E.integers_at d s mcs.targetParameters ++
        E.integers_at d s mcs.minimumParameters ++
        E.integers_at d s mcs.maximumParameters ++
        E.octet_string u (toInt32 (stream_get_length u)) := by
  unfold connect_initial_content
  rw [connect_initial_output_eq, connect_initial_log]
  simp [BerEncoding.bytes]

/-- The declared length, for any buffer. -/
theorem connect_initial_declared_eq (mcs : rdpMcs) (u : STREAM) :
    connect_initial_declared mcs u =
      some (toInt32 (toInt32 (stream_get_length u) + 3 * 34 + 13)) := by
  unfold connect_initial_declared
  rw [connect_initial_log]
  simp

/-- Claim C6: for a freshly created context and every 16-byte userData buffer, the
writer declares the length 131 in the application tag, its first call; under any
byte encoding the sink then holds the application-tag header followed directly
by the encoding of the octet string `callingDomainSelector`, which under `ber` is
the OCTET STRING tag `0x04`, the length 1 and the value `0x01`.  The calls made
are the 29 calls of the default context. -/
theorem connect_initial_sixteen_bytes (available : Bool) (transport : Nat) (mcs : rdpMcs)
    (u : STREAM) (s : Nat) (hm : mcs_new available transport = some mcs)
    (hu : u.length = 16) :
    connect_initial_declared mcs u = some 131 ∧
    (mcs_write_connect_initial BerCall.log [] s mcs u).head? =
      some (BerCall.application_tag s MCS_TYPE_CONNECT_INITIAL 131) ∧
    (∀ (E : BerEncoding) (d : Option Nat) (w : Nat → STREAM),
      mcs_write_connect_initial (E.primitives d) w s mcs u s =
        w s ++ (E.application_tag MCS_TYPE_CONNECT_INITIAL 131 ++
          (E.octet_string callingDomainSelector 1 ++ (connect_initial_content E d s mcs u).drop
            (E.octet_string callingDomainSelector 1).length))) ∧
    (∀ integer : Nat → List Nat,
      (ber integer).application_tag MCS_TYPE_CONNECT_INITIAL 131 =
        [0x7F, 0x65, 0x82, 0x00, 0x83]) ∧
    (∀ integer : Nat → List Nat,
      (ber integer).octet_string callingDomainSelector 1 = [0x04, 0x01, 0x01]) ∧
    (∀ (integer : Nat → List Nat) (d : Option Nat),
      (connect_initial_content (ber integer) d s mcs u).take 3 = [0x04, 0x01, 0x01]) ∧
    mcs_write_connect_initial BerCall.log [] s mcs u =
      [BerCall.application_tag s MCS_TYPE_CONNECT_INITIAL 131,
        BerCall.octet_string s [0x01] 1, BerCall.octet_string s [0x01] 1,
        BerCall.boolean s true,
        BerCall.integer 34, BerCall.integer 2, BerCall.integer 0, BerCall.integer 0,
        BerCall.integer 0, BerCall.integer 0, BerCall.integer 0xFFFF, BerCall.integer 0,
        BerCall.integer 1, BerCall.integer 1, BerCall.integer 1, BerCall.integer 0,
        BerCall.integer 0, BerCall.integer 0, BerCall.integer 0x420, BerCall.integer 0,
        BerCall.integer 0xFFFF, BerCall.integer 0xFC17, BerCall.integer 0xFFFF,
        BerCall.integer 0, BerCall.integer 0, BerCall.integer 0, BerCall.integer 0xFFFF,
        BerCall.integer 0,
        BerCall.octet_string s u 16] := by
  have hg : toInt32 (stream_get_length u) = ((16 : Nat) : Int) := by
    rw [toInt32_length u (by omega), hu]
  have hl : toInt32 (toInt32 (stream_get_length u) + 3 * 34 + 13) = 131 := by
    rw [hg]
    decide
  refine ⟨?_, ?_, ?_, fun _ => rfl, fun _ => rfl, ?_, ?_⟩
  · rw [connect_initial_declared_eq, hl]
  · rw [connect_initial_log, hl]
    simp
  · intro E d w
    rw [connect_initial_content_eq, connect_initial_bytes, hl]
    simp [callingDomainSelector]
  · intro integer d
    have hs : (ber integer).octet_string [0x01] 1 = [0x04, 0x01, 0x01] := rfl
    rw [connect_initial_content_eq, hs]
    simp only [List.append_assoc, List.cons_append, List.nil_append]
    rfl
  · obtain ⟨-, h1, h2, h3⟩ := mcs_new_parameters available transport mcs hm
    rw [connect_initial_log, hl, hg]
    simp only [domain_parameters_log, h1, h2, h3]
    rfl

/-- Witness of `connect_initial_sixteen_bytes`: the context created for the transport
`7`, the payload `0, 1, …, 15` and the sink at address `2`. -/
theorem connect_initial_sixteen_bytes_witness :
    mcs_new true 7 = some (fresh_context 7) ∧ (List.range 16).length = 16 ∧
    connect_initial_declared (fresh_context 7) (List.range 16) = some 131 ∧
    (connect_initial_content (ber fun v => [v]) none 2 (fresh_context 7)
        (List.range 16)).take 3 =
      [0x04, 0x01, 0x01] :=
  ⟨by decide, by decide,
    (connect_initial_sixteen_bytes true 7 (fresh_context 7) (List.range 16) 2
      (by decide) (by decide)).1,
    (connect_initial_sixteen_bytes true 7 (fresh_context 7) (List.range 16) 2
      (by decide) (by decide)).2.2.2.2.2.1 (fun v => [v]) none⟩

/-! ## Declared length against written length -/

/-- Claim C7, the code at a freshly created context and the empty userData: the
header declares 115 content bytes, the constant `3*34 + 13`, whatever the
context holds; the calls that are handed the sink put 11 bytes after the header
under `ber` (two selectors, the boolean, the empty octet string), and when the
24 integer calls reach the sink as well the content is those 11 bytes and the 24
integer encodings, 115 only if these happen to total 104 bytes. -/
theorem connect_initial_declared_not_written (integer : Nat → List Nat) (s : Nat) :
    connect_initial_declared (fresh_context 7) [] = some 115 ∧
    (∀ mcs : rdpMcs, connect_initial_declared mcs [] = some 115) ∧
    connect_initial_content (ber integer) none s (fresh_context 7) [] =
      [0x04, 0x01, 0x01, 0x04, 0x01, 0x01, 0x01, 0x01, 0xFF, 0x04, 0x00] ∧
    (connect_initial_content (ber integer) none s (fresh_context 7) []).length = 11 ∧
    (connect_initial_content (ber integer) (some s) s (fresh_context 7) []).length =
      11 + (((fresh_context 7).targetParameters.fields ++
        (fresh_context 7).minimumParameters.fields ++
        (fresh_context 7).maximumParameters.fields).map fun v => (integer v).length).sum ∧
    connect_initial_output (ber integer) none s (fresh_context 7) [] =
      (ber integer).application_tag MCS_TYPE_CONNECT_INITIAL 115 ++
        connect_initial_content (ber integer) none s (fresh_context 7) [] := by
  have hc : connect_initial_content (ber integer) none s (fresh_context 7) [] =
      [0x04, 0x01, 0x01, 0x04, 0x01, 0x01, 0x01, 0x01, 0xFF, 0x04, 0x00] := by
    rw [connect_initial_content_eq]
    rfl
  refine ⟨by decide, fun mcs => ?_, hc, by rw [hc]; rfl, ?_, ?_⟩
  · rw [connect_initial_declared_eq]
    rfl
  · rw [connect_initial_content_eq]
    have ho : (ber integer).octet_string [0x01] 1 = [0x04, 0x01, 0x01] := rfl
    have hb : (ber integer).boolean true = [0x01, 0x01, 0xFF] := rfl
    have hu : (ber integer).octet_string [] (toInt32 (stream_get_length [])) = [0x04, 0x00] :=
      rfl
    have hi : (ber integer).integer = integer := rfl
    rw [ho, hb, hu]
    simp only [BerEncoding.integers_at, if_true, hi, List.length_append, List.length_flatten,
      List.map_append, List.sum_append, List.map_map, List.length_cons, List.length_nil]
    simp only [Function.comp_def]
    omega
  · rw [hc, connect_initial_output_eq]
    rfl

/-! ## The domain-parameter blocks on the wire -/

/-- Claim C8, the code at a freshly created context and the empty userData, the
sink at address `2`: the calls that follow the two selectors are the boolean,
then the 24 integer calls of the three records one after another, then the
userData octet string; no call for a SEQUENCE tag and length precedes the eight
integers of a block. -/
theorem connect_initial_blocks_not_wrapped :
    (mcs_write_connect_initial BerCall.log [] 2 (fresh_context 7) []).drop 3 =
      [BerCall.boolean 2 true,
        BerCall.integer 34, BerCall.integer 2, BerCall.integer 0, BerCall.integer 0,
        BerCall.integer 0, BerCall.integer 0, BerCall.integer 0xFFFF, BerCall.integer 0,
        BerCall.integer 1, BerCall.integer 1, BerCall.integer 1, BerCall.integer 0,
        BerCall.integer 0, BerCall.integer 0, BerCall.integer 0x420, BerCall.integer 0,
        BerCall.integer 0xFFFF, BerCall.integer 0xFC17, BerCall.integer 0xFFFF,
        BerCall.integer 0, BerCall.integer 0, BerCall.integer 0, BerCall.integer 0xFFFF,
        BerCall.integer 0,
        BerCall.octet_string 2 [] 0] ∧
    (mcs_write_domain_parameters BerCall.log [] 2 (fresh_context 7).targetParameters).head? =
      some (BerCall.integer 34) ∧
    (mcs_write_domain_parameters BerCall.log [] 2 (fresh_context 7).targetParameters).length =
      8 := by
  decide

/-! ## Failure of a primitive -/

/-- The state `run_all` ends in is the state reached by making every call with its
status dropped. -/
theorem run_all_state {ε ω : Type} (B : FallibleBer ε ω) (calls : List BerCall) (w : ω) :
    (run_all B calls w).1 = calls.foldl (BerCall.replay B.discard) w := by
  induction calls generalizing w with
  | nil => rfl
  | cons c cs ih =>
    simp only [run_all, List.foldl_cons]
    rw [ih]
    cases c <;> rfl

/-- When no call of a run fails, the state the run ends in is the one a run that
propagates failures returns. -/
theorem run_until_failure_of_no_error {ε ω : Type} (B : FallibleBer ε ω)
    (calls : List BerCall) (w : ω) (h : (run_all B calls w).2 = []) :
    run_until_failure B calls w = Except.ok (run_all B calls w).1 := by
  induction calls generalizing w with
  | nil => rfl
  | cons c cs ih =>
    simp only [run_all, List.append_eq_nil] at h
    cases hr : BerCall.attempt B w c with
    | mk w1 e =>
      rw [hr] at h
      cases e with
      | some e0 => simp at h
      | none =>
        simp only [run_until_failure, run_all, hr]
        exact ih w1 h.2

/-- Claim C10 as stated fails: on streams of capacity 11 under `ber`, with a freshly
created context, the empty userData and the empty sink at address `2`, the
boolean call fails; a run that propagated would end there with that error, but
the writer goes on, makes the remaining calls and leaves in the sink the octet
string `04 00` of the userData, written after the failure; its result holds no
error. -/
theorem connect_initial_continues_past_failure :
    run_until_failure ((ber fun _ => []).bounded 11)
        (mcs_write_connect_initial BerCall.log [] 2 (fresh_context 7) []) (fun _ => []) =
      Except.error (BerCall.boolean 2 true) ∧
    (run_all ((ber fun _ => []).bounded 11)
        (mcs_write_connect_initial BerCall.log [] 2 (fresh_context 7) []) (fun _ => [])).2 =
      [BerCall.boolean 2 true] ∧
    mcs_write_connect_initial ((ber fun _ => []).bounded 11).discard (fun _ => []) 2
        (fresh_context 7) [] 2 =
      [0x7F, 0x65, 0x73, 0x04, 0x01, 0x01, 0x04, 0x01, 0x01, 0x04, 0x00] := by
  refine ⟨rfl, by decide, by decide⟩

/-- Claim C10, amended: over primitives that may fail, `mcs_write_connect_initial`
and `mcs_write_domain_parameters` return no status and test none: each makes all
its calls (29 and 8) in order, every call on the state the call before it left,
failed or not, and its result is the state after the last call; the errors the
calls raised are not part of it.  They add no error of their own. -/
theorem connect_initial_tests_no_status {ε ω : Type} (B : FallibleBer ε ω) (w : ω)
    (s : Nat) (mcs : rdpMcs) (u : STREAM) (dp : DOMAIN_PARAMETERS) :
    mcs_write_connect_initial B.discard w s mcs u =
      (run_all B (mcs_write_connect_initial BerCall.log [] s mcs u) w).1 ∧
    mcs_write_domain_parameters B.discard w s dp =
      (run_all B (mcs_write_domain_parameters BerCall.log [] s dp) w).1 ∧
    (mcs_write_connect_initial BerCall.log [] s mcs u).length = 29 ∧
    (mcs_write_domain_parameters BerCall.log [] s dp).length = 8 := by
  refine ⟨?_, ?_, ?_, ?_⟩
  · rw [run_all_state, ← connect_initial_replay]
  · rw [run_all_state, ← domain_parameters_replay]
  · rw [connect_initial_log]
    simp only [domain_parameters_log]
    rfl
  · rw [domain_parameters_log]
    rfl

/-! ## Calls on the memory -/

/-- Putting bytes at a stream leaves the modules as they are. -/
theorem memory_put_modules (m : Memory) (s : Nat) (b : STREAM) :
    (m.put s b).modules = m.modules := rfl

/-- Putting bytes at a stream leaves the transports as they are. -/
theorem memory_put_transports (m : Memory) (s : Nat) (b : STREAM) :
    (m.put s b).transports = m.transports := rfl

/-- The stream just put holds the bytes put. -/
theorem memory_put_streams_same (m : Memory) (s : Nat) (b : STREAM) :
    (m.put s b).streams s = some b := by
  simp [Memory.put]

/-- Every other stream is as before. -/
theorem memory_put_streams_ne (m : Memory) (s a : Nat) (b : STREAM) (h : a ≠ s) :
    (m.put s b).streams a = m.streams a := by
  simp [Memory.put, h]

/-- A second put at the same stream replaces the first. -/
theorem memory_put_put (m : Memory) (s : Nat) (b c : STREAM) :
    (m.put s b).put s c = m.put s c := by
  simp [Memory.put]

/-- A write to a stream that holds `b`. -/
theorem memory_write_eq (m : Memory) (s : Nat) (b bytes : STREAM)
    (hb : m.streams s = some b) :
    m.write s bytes = some (m.put s (b ++ bytes)) := by
  simp [Memory.write, hb]

/-- A write to a stream just put. -/
theorem memory_write_put (m : Memory) (s : Nat) (b bytes : STREAM) :
    (m.put s b).write s bytes = some (m.put s (b ++ bytes)) := by
  rw [memory_write_eq _ s b bytes (memory_put_streams_same m s b), memory_put_put]

/-- An integer call after a put at the sink, for a live module, when the integer
calls reach the sink or no stream. -/
theorem memory_ber_write_integer_put (E : BerEncoding) (d : Option Nat) (m : Memory)
    (s mcs : Nat) (field : rdpMcs → Nat) (c : rdpMcs) (b : STREAM)
    (hc : m.modules mcs = some c) (hd : d = none ∨ d = some s) :
    (m.put s b).ber_write_integer E d mcs field =
      some (m.put s (b ++ if d = some s then E.integer (field c) else [])) := by
  rcases hd with hd | hd
  · subst hd
    simp [Memory.ber_write_integer, memory_put_modules, hc]
  · subst hd
    simp [Memory.ber_write_integer, memory_put_modules, hc, memory_write_put]

/-- On the memory, `mcs_write_domain_parameters` adds to the sink the integers that
reach it. -/
theorem memory_domain_parameters_put (E : BerEncoding) (d : Option Nat) (m : Memory)
    (s mcs : Nat) (role : rdpMcs → DOMAIN_PARAMETERS) (c : rdpMcs) (b : STREAM)
    (hc : m.modules mcs = some c) (hd : d = none ∨ d = some s) :
    (m.put s b).mcs_write_domain_parameters E d s mcs role =
      some (m.put s (b ++ E.integers_at d s (role c))) := by
  simp only [Memory.mcs_write_domain_parameters,
    memory_ber_write_integer_put E d m s mcs _ c _ hc hd,
    Option.bind_eq_bind, Option.some_bind, Option.pure_def]
  by_cases h : d = some s <;>
    simp [BerEncoding.integers_at, DOMAIN_PARAMETERS.fields, h]

/-- An octet-string call after a put at the sink, for bytes read through a pointer
to a stream: the stream read is the sink as just put when the pointer is the
sink itself. -/
theorem memory_ber_write_octet_string_put (E : BerEncoding) (m : Memory)
    (s user_data : Nat) (length : Int) (u b : STREAM)
    (hu : m.streams user_data = some u) :
    (m.put s b).ber_write_octet_string E s user_data length =
      some (m.put s (b ++ E.octet_string (if user_data = s then b else u) length)) := by
  by_cases h : user_data = s
  · subst h
    simp [Memory.ber_write_octet_string, memory_put_streams_same, memory_write_put]
  · simp [Memory.ber_write_octet_string, memory_put_streams_ne m s user_data b h, hu,
      memory_write_put, h]

/-- On the memory, the writer puts at the sink the bytes before the userData, then
the octet string of what the userData pointer refers to when the last call is
made. -/
theorem memory_connect_initial_put (E : BerEncoding) (d : Option Nat) (m : Memory)
    (s mcs user_data : Nat) (c : rdpMcs) (b u : STREAM) (hc : m.modules mcs = some c)
    (hb : m.streams s = some b) (hu : m.streams user_data = some u)
    (hd : d = none ∨ d = some s) :
    m.mcs_write_connect_initial E d s mcs user_data =
      some (m.put s (m.connect_initial_before_user_data E d s c u.length b ++
        E.octet_string
          (if user_data = s then m.connect_initial_before_user_data E d s c u.length b else u)
          (toInt32 (stream_get_length u)))) := by
  simp only [Memory.mcs_write_connect_initial, hu, memory_write_eq m s b _ hb,
    memory_write_put, memory_domain_parameters_put E d m s mcs _ c _ hc hd,
    memory_ber_write_octet_string_put E m s user_data _ u _ hu,
    Option.bind_eq_bind, Option.some_bind, Option.pure_def]
  rfl

/-- Claim C13, amended: for every live context, every sink and every userData
stream other than the sink, whether the integer calls reach the sink or no
stream, `mcs_write_connect_initial` returns, and after the call every module (the
context with its target, minimum and maximum parameters and its transport
reference among them), every transport, the two selector globals and every
stream other than the sink (the userData stream with its bytes and length among
them) is as before; the sink holds what it held, followed by what was added. -/
theorem connect_initial_changes_only_sink (E : BerEncoding) (d : Option Nat) (m : Memory)
    (s mcs user_data : Nat) (c : rdpMcs) (b u : STREAM)
    (hc : m.modules mcs = some c) (hb : m.streams s = some b)
    (hu : m.streams user_data = some u) (hne : user_data ≠ s)
    (hd : d = none ∨ d = some s) :
    ∃ m1 : Memory, m.mcs_write_connect_initial E d s mcs user_data = some m1 ∧
      m1.modules = m.modules ∧ m1.modules mcs = some c ∧
      m1.transports = m.transports ∧
      m1.callingDomainSelector = m.callingDomainSelector ∧
      m1.calledDomainSelector = m.calledDomainSelector ∧
      (∀ a : Nat, a ≠ s → m1.streams a = m.streams a) ∧
      m1.streams user_data = some u ∧
      ∃ added : List Nat, m1.streams s = some (b ++ added) := by
  refine ⟨_, memory_connect_initial_put E d m s mcs user_data c b u hc hb hu hd, rfl, hc, rfl,
    rfl, rfl, fun a ha => memory_put_streams_ne m s a _ ha, ?_, ?_⟩
  · rw [memory_put_streams_ne m s user_data _ hne, hu]
  · refine ⟨m.connect_initial_before_user_data E d s c u.length [] ++
      E.octet_string
        (if user_data = s then m.connect_initial_before_user_data E d s c u.length b else u)
        (toInt32 (stream_get_length u)), ?_⟩
    rw [memory_put_streams_same]
    simp only [Memory.connect_initial_before_user_data, List.append_assoc, List.nil_append]

/-- Witness of `connect_initial_changes_only_sink`: the sample memory with its module
at address `8`, the sink at address `2` and the userData stream at address `1`,
the integer calls reaching no stream. -/
theorem connect_initial_changes_only_sink_witness :
    Memory.sample_with_module.modules 8 = some (fresh_context 7) ∧
    Memory.sample_with_module.streams 2 = some [] ∧
    Memory.sample_with_module.streams 1 = some [9] ∧ (1 : Nat) ≠ 2 ∧
    ∃ m1 : Memory,
      Memory.sample_with_module.mcs_write_connect_initial (ber fun v => [v]) none 2 8 1 =
        some m1 ∧
      m1.modules = Memory.sample_with_module.modules ∧
      m1.modules 8 = some (fresh_context 7) ∧
      m1.transports = Memory.sample_with_module.transports ∧
      m1.callingDomainSelector = Memory.sample_with_module.callingDomainSelector ∧
      m1.calledDomainSelector = Memory.sample_with_module.calledDomainSelector ∧
      (∀ a : Nat, a ≠ 2 → m1.streams a = Memory.sample_with_module.streams a) ∧
      m1.streams 1 = some [9] ∧
      ∃ added : List Nat, m1.streams 2 = some ([] ++ added) :=
  ⟨by decide, by decide, by decide, by decide,
    connect_initial_changes_only_sink (ber fun v => [v]) none Memory.sample_with_module 2 8 1
      (fresh_context 7) [] [9] (by decide) (by decide) (by decide) (by decide)
      (Or.inl rfl)⟩

/-- Claim C13 as stated fails when the userData stream is the sink itself: on the
sample memory, with the stream at address `1` (one byte) passed both as sink and
as userData, that stream holds more than its one byte after the call, the
application tag and the calls after it having been appended to it; the module is
as before. -/
theorem connect_initial_user_data_is_sink :
    Memory.sample_with_module.streams 1 = some [9] ∧
    ((Memory.sample_with_module.mcs_write_connect_initial (ber fun _ => []) none 1 8 1).bind
      fun m1 => m1.streams 1) =
      some [9, 0x7F, 0x65, 0x74, 0x04, 0x01, 0x01, 0x04, 0x01, 0x01, 0x01, 0x01, 0xFF,
        0x04, 0x01, 9] ∧
    ((Memory.sample_with_module.mcs_write_connect_initial (ber fun _ => []) none 1 8 1).bind
      fun m1 => (m1.streams 1).map List.length) = some 16 ∧
    ((Memory.sample_with_module.mcs_write_connect_initial (ber fun _ => []) none 1 8 1).bind
      fun m1 => m1.modules 8) = Memory.sample_with_module.modules 8 := by
  refine ⟨by decide, by decide, by decide, by decide⟩

/-! ## Determinism -/

/-- The module `mcs_new` leaves at the address it returns, when storage is
obtained. -/
theorem memory_mcs_new_some (m : Memory) (p transport : Nat) (hp : p ≠ 0)
    (hm : m.modules p = none) :
    (m.mcs_new (some p) transport).2 = p ∧
    (m.mcs_new (some p) transport).1.modules p = mcs_new true transport ∧
    (∀ a : Nat, a ≠ p → (m.mcs_new (some p) transport).1.modules a = m.modules a) ∧
    (m.mcs_new (some p) transport).1.streams = m.streams ∧
    (m.mcs_new (some p) transport).1.transports = m.transports := by
  have hx : m.xzalloc (some p) =
      ({ m with modules := Function.update m.modules p (some rdpMcs.zero) }, p) := by
    simp [Memory.xzalloc, hp, hm]
  refine ⟨?_, ?_, ?_, ?_, ?_⟩
  · simp [Memory.mcs_new, hx, hp]
  · simp [Memory.mcs_new, hx, hp, Memory.assign, mcs_new, xzalloc]
  · intro a ha
    simp [Memory.mcs_new, hx, hp, Memory.assign, ha]
  · simp [Memory.mcs_new, hx, hp, Memory.assign]
  · simp [Memory.mcs_new, hx, hp, Memory.assign]

/-- When the allocator returns the null pointer, `mcs_new` returns it and the memory
is as before. -/
theorem memory_mcs_new_null (m : Memory) (slot : Option Nat) (transport : Nat)
    (hx : (m.xzalloc slot).2 = 0) :
    (m.mcs_new slot transport).2 = 0 ∧ (m.mcs_new slot transport).1 = m := by
  have h1 : (m.xzalloc slot).1 = m := by
    cases slot with
    | none => rfl
    | some p =>
      by_cases hp : p ≠ 0 ∧ m.modules p = none
      · exfalso
        have h2 : m.xzalloc (some p) =
            ({ m with modules := Function.update m.modules p (some rdpMcs.zero) }, p) := by
          simp [Memory.xzalloc, hp.1, hp.2]
        rw [h2] at hx
        exact hp.1 hx
      · simp [Memory.xzalloc, hp]
  simp [Memory.mcs_new, hx, h1]

/-- The allocator returns a non-null pointer only for a slot that is non-null and
free, and then returns that slot. -/
theorem memory_xzalloc_ne_null (m : Memory) (slot : Option Nat)
    (hx : (m.xzalloc slot).2 ≠ 0) :
    slot = some (m.xzalloc slot).2 ∧ m.modules (m.xzalloc slot).2 = none := by
  cases slot with
  | none => simp [Memory.xzalloc] at hx
  | some p =>
    by_cases hp : p ≠ 0 ∧ m.modules p = none
    · simp [Memory.xzalloc, hp]
    · simp [Memory.xzalloc, hp] at hx

/-- Claim C11: `mcs_new` returns the null pointer exactly when the allocation fails
(over values: `none` exactly when `xzalloc` yields `none`).  When the allocation
fails the memory after the call is the memory before it: no field is written.
When it succeeds the pointer returned is the one obtained, and the module there
is the context with the transport and the defaults. -/
theorem mcs_new_fails_iff_allocation_fails (m : Memory) (slot : Option Nat)
    (available : Bool) (transport : Nat) :
    ((m.mcs_new slot transport).2 = 0 ↔ (m.xzalloc slot).2 = 0) ∧
    (mcs_new available transport = none ↔ xzalloc available = none) ∧
    (((m.xzalloc slot).2 = 0 ∧ (m.mcs_new slot transport).1 = m) ∨
      ((m.xzalloc slot).2 ≠ 0 ∧ (m.mcs_new slot transport).2 = (m.xzalloc slot).2 ∧
        (m.mcs_new slot transport).1.modules (m.mcs_new slot transport).2 =
          mcs_new true transport ∧
        (mcs_new true transport).isSome = true)) := by
  have hv : mcs_new available transport = none ↔ xzalloc available = none := by
    cases available <;> simp [mcs_new, xzalloc]
  by_cases hx : (m.xzalloc slot).2 = 0
  · have h := memory_mcs_new_null m slot transport hx
    exact ⟨⟨fun _ => hx, fun _ => h.1⟩, hv, Or.inl ⟨hx, h.2⟩⟩
  · have hs := memory_xzalloc_ne_null m slot hx
    have h := memory_mcs_new_some m (m.xzalloc slot).2 transport hx hs.2
    rw [← hs.1] at h
    refine ⟨⟨fun h0 => ?_, fun h0 => absurd h0 hx⟩, hv, Or.inr ⟨hx, h.1, ?_, rfl⟩⟩
    · rw [h.1] at h0
      exact absurd h0 hx
    · rw [h.1]
      exact h.2.1

/-- Claim C12: `mcs_free` of the null pointer returns the memory as it is, without
fault.  `mcs_free` of a live context succeeds and releases the storage of that
context only: every other module, every transport (the one the context refers
to among them) and every stream is as before; a further `mcs_free` of the null
pointer then succeeds and changes nothing. -/
theorem mcs_free_null_is_noop (m : Memory) (p : Nat) (c : rdpMcs) (hp : p ≠ 0)
    (hc : m.modules p = some c) :
    m.mcs_free 0 = some m ∧
    ∃ m1 : Memory, m.mcs_free p = some m1 ∧ m1.modules p = none ∧
      (∀ a : Nat, a ≠ p → m1.modules a = m.modules a) ∧
      m1.transports = m.transports ∧
      m1.transports c.transport = m.transports c.transport ∧
      m1.streams = m.streams ∧
      m1.mcs_free 0 = some m1 := by
  refine ⟨by simp [Memory.mcs_free], { m with modules := Function.update m.modules p none },
    by simp [Memory.mcs_free, Memory.xfree, hp, hc], by simp, ?_, rfl, rfl, rfl,
    by simp [Memory.mcs_free]⟩
  intro a ha
  simp [ha]

/-- Witness of `mcs_free_null_is_noop`: the sample memory with its module at address
`8`. -/
theorem mcs_free_null_is_noop_witness :
    (8 : Nat) ≠ 0 ∧ Memory.sample_with_module.modules 8 = some (fresh_context 7) ∧
    Memory.sample_with_module.mcs_free 0 = some Memory.sample_with_module ∧
    ∃ m1 : Memory, Memory.sample_with_module.mcs_free 8 = some m1 ∧ m1.modules 8 = none ∧
      (∀ a : Nat, a ≠ 8 → m1.modules a = Memory.sample_with_module.modules a) ∧
      m1.transports = Memory.sample_with_module.transports ∧
      m1.transports (fresh_context 7).transport =
        Memory.sample_with_module.transports (fresh_context 7).transport ∧
      m1.streams = Memory.sample_with_module.streams ∧
      m1.mcs_free 0 = some m1 :=
  ⟨by decide, by decide,
    mcs_free_null_is_noop Memory.sample_with_module 8 (fresh_context 7) (by decide)
      (by decide)⟩

/-- The pointer passed to `mcs_free` is passed by value: the caller keeps the
address.  A second `mcs_free` of that same address, not of the null pointer,
finds no live storage there and is a fault. -/
theorem mcs_free_same_address_twice (m : Memory) (p : Nat) (hp : p ≠ 0) :
    ((m.mcs_free p).bind fun m1 => m1.mcs_free p) = none := by
  cases hm : m.modules p with
  | none => simp [Memory.mcs_free, Memory.xfree, hp, hm]
  | some c => simp [Memory.mcs_free, Memory.xfree, hp, hm]

/-! ## The three roles -/

/-- Claim C14 as stated fails: in the context `mcs_new` returns, maxTokenIds is 1 in
minimum and 0 in target, so minimum is not at most target for that field. -/
theorem mcs_new_token_ids_not_ordered :
    mcs_new true 7 = some (fresh_context 7) ∧
    (fresh_context 7).minimumParameters.maxTokenIds = 1 ∧
    (fresh_context 7).targetParameters.maxTokenIds = 0 ∧
    ¬ ((fresh_context 7).minimumParameters.maxTokenIds ≤
        (fresh_context 7).targetParameters.maxTokenIds) := by
  decide

/-- Claim C14, amended: in every context returned by `mcs_new`, for each of the
seven fields other than maxTokenIds the value in minimum is at most the value in
target, which is at most the value in maximum; for maxTokenIds the target is 0
and the minimum 1, both at most the maximum 0xFFFF. -/
theorem mcs_new_roles_ordered (available : Bool) (transport : Nat) (mcs : rdpMcs)
    (h : mcs_new available transport = some mcs) :
    (mcs.minimumParameters.maxChannelIds ≤ mcs.targetParameters.maxChannelIds ∧
      mcs.targetParameters.maxChannelIds ≤ mcs.maximumParameters.maxChannelIds) ∧
    (mcs.minimumParameters.maxUserIds ≤ mcs.targetParameters.maxUserIds ∧
      mcs.targetParameters.maxUserIds ≤ mcs.maximumParameters.maxUserIds) ∧
    (mcs.minimumParameters.numPriorities ≤ mcs.targetParameters.numPriorities ∧
      mcs.targetParameters.numPriorities ≤ mcs.maximumParameters.numPriorities) ∧
    (mcs.minimumParameters.minThroughput ≤ mcs.targetParameters.minThroughput ∧
      mcs.targetParameters.minThroughput ≤ mcs.maximumParameters.minThroughput) ∧
    (mcs.minimumParameters.maxHeight ≤ mcs.targetParameters.maxHeight ∧
      mcs.targetParameters.maxHeight ≤ mcs.maximumParameters.maxHeight) ∧
    (mcs.minimumParameters.maxMCSPDUsize ≤ mcs.targetParameters.maxMCSPDUsize ∧
      mcs.targetParameters.maxMCSPDUsize ≤ mcs.maximumParameters.maxMCSPDUsize) ∧
    (mcs.minimumParameters.protocolVersion ≤ mcs.targetParameters.protocolVersion ∧
      mcs.targetParameters.protocolVersion ≤ mcs.maximumParameters.protocolVersion) ∧
    (mcs.targetParameters.maxTokenIds = 0 ∧ mcs.minimumParameters.maxTokenIds = 1 ∧
      mcs.maximumParameters.maxTokenIds = 0xFFFF) := by
  obtain ⟨-, h1, h2, h3⟩ := mcs_new_parameters available transport mcs h
  rw [h1, h2, h3]
  decide

/-- Witness of `mcs_new_roles_ordered`: the context created for the transport `7`. -/
theorem mcs_new_roles_ordered_witness :
    mcs_new true 7 = some (fresh_context 7) ∧
    ((fresh_context 7).minimumParameters.maxChannelIds ≤
        (fresh_context 7).targetParameters.maxChannelIds ∧
      (fresh_context 7).targetParameters.maxChannelIds ≤
        (fresh_context 7).maximumParameters.maxChannelIds) :=
  ⟨by decide, (mcs_new_roles_ordered true 7 (fresh_context 7) (by decide)).1⟩

/-- Claim C15: the context `mcs_new` returns for a transport `t` holds exactly `t` as
its transport reference, and each of its three roles holds its own record: the
defaults of its own call on zeroed fields, whatever was written into the other
two; replacing the record of one role leaves the records of the other roles as
they are.  On the memory the module at the returned address is that context. -/
theorem mcs_new_transport_and_roles (available : Bool) (transport : Nat) (mcs : rdpMcs)
    (h : mcs_new available transport = some mcs) :
    mcs.transport = transport ∧
    mcs.targetParameters =
      mcs_init_domain_parameters DOMAIN_PARAMETERS.zero 34 2 0 0xFFFF ∧
    mcs.minimumParameters =
      mcs_init_domain_parameters DOMAIN_PARAMETERS.zero 1 1 1 0x420 ∧
    mcs.maximumParameters =
      mcs_init_domain_parameters DOMAIN_PARAMETERS.zero 0xFFFF 0xFC17 0xFFFF 0xFFFF ∧
    (∀ dp : DOMAIN_PARAMETERS,
      ({ mcs with targetParameters := dp }).minimumParameters = mcs.minimumParameters ∧
      ({ mcs with targetParameters := dp }).maximumParameters = mcs.maximumParameters ∧
      ({ mcs with minimumParameters := dp }).targetParameters = mcs.targetParameters ∧
      ({ mcs with minimumParameters := dp }).maximumParameters = mcs.maximumParameters ∧
      ({ mcs with maximumParameters := dp }).targetParameters = mcs.targetParameters ∧
      ({ mcs with maximumParameters := dp }).minimumParameters = mcs.minimumParameters) ∧
    (∀ (m : Memory) (p : Nat), p ≠ 0 → m.modules p = none →
      (m.mcs_new (some p) transport).1.modules (m.mcs_new (some p) transport).2 =
        some mcs) := by
  have hm : mcs_new true transport = some mcs := by
    cases available with
    | false => simp [mcs_new, xzalloc] at h
    | true => exact h
  obtain ⟨h0, h1, h2, h3⟩ := mcs_new_parameters available transport mcs h
  refine ⟨h0, ?_, ?_, ?_, fun dp => ⟨rfl, rfl, rfl, rfl, rfl, rfl⟩, fun m p hp hn => ?_⟩
  · rw [h1]; rfl
  · rw [h2]; rfl
  · rw [h3]; rfl
  · have k := memory_mcs_new_some m p transport hp hn
    rw [k.1, k.2.1, hm]

/-- Witness of `mcs_new_transport_and_roles`: the context created for the transport
`7`. -/
theorem mcs_new_transport_and_roles_witness :
    mcs_new true 7 = some (fresh_context 7) ∧ (fresh_context 7).transport = 7 ∧
    (fresh_context 7).targetParameters =
      mcs_init_domain_parameters DOMAIN_PARAMETERS.zero 34 2 0 0xFFFF :=
  ⟨by decide, (mcs_new_transport_and_roles true 7 (fresh_context 7) (by decide)).1,
    (mcs_new_transport_and_roles true 7 (fresh_context 7) (by decide)).2.1⟩

/-! ## Appending and the range of the length -/

/-- Claim C16: for every sink already holding bytes `p`, every context and every
userData, under any byte encoding of the primitives and wherever the integer
calls go, the sink after `mcs_write_connect_initial` is `p` followed by exactly
the bytes the same call puts on an empty sink; likewise for
`mcs_write_domain_parameters`.  The bytes held before are the first bytes
after. -/
theorem connect_initial_append_only (E : BerEncoding) (d : Option Nat) (w : Nat → STREAM)
    (s : Nat) (p : STREAM) (mcs : rdpMcs) (u : STREAM) (dp : DOMAIN_PARAMETERS) :
    mcs_write_connect_initial (E.primitives d) (Function.update w s p) s mcs u s =
      p ++ mcs_write_connect_initial (E.primitives d) (Function.update w s []) s mcs u s ∧
    mcs_write_connect_initial (E.primitives d) (Function.update w s p) s mcs u s =
      p ++ connect_initial_output E d s mcs u ∧
    (mcs_write_connect_initial (E.primitives d) (Function.update w s p) s mcs u s).take
      p.length = p ∧
    mcs_write_domain_parameters (E.primitives d) (Function.update w s p) s dp s =
      p ++ mcs_write_domain_parameters (E.primitives d) (Function.update w s []) s dp s ∧
    (mcs_write_domain_parameters (E.primitives d) (Function.update w s p) s dp s).take
      p.length = p := by
  have h1 : mcs_write_connect_initial (E.primitives d) (Function.update w s p) s mcs u s =
      p ++ mcs_write_connect_initial (E.primitives d) (Function.update w s []) s mcs u s := by
    rw [connect_initial_bytes E d (Function.update w s p),
      connect_initial_bytes E d (Function.update w s [])]
    simp only [Function.update_same, List.nil_append]
  have h2 : mcs_write_domain_parameters (E.primitives d) (Function.update w s p) s dp s =
      p ++ mcs_write_domain_parameters (E.primitives d) (Function.update w s []) s dp s := by
    rw [domain_parameters_bytes E d (Function.update w s p),
      domain_parameters_bytes E d (Function.update w s [])]
    simp only [Function.update_same, List.nil_append]
  refine ⟨h1, ?_, ?_, h2, ?_⟩
  · rw [connect_initial_bytes, connect_initial_output_eq]
    simp only [Function.update_same]
  · rw [h1, List.take_left']
    rfl
  · rw [h2, List.take_left']
    rfl

/-- Claim C17: the length is computed in `int`.  For every userData length `n` with
`n ≤ 2147483532` (that is `2^31 - 1 - 115`) the measured length is stored as `n`,
the sum `n + 3*34 + 13` is stored unchanged (it does not wrap), it is at most
`INT_MAX`, strictly positive and strictly greater than `n`; it is the length the
application tag declares, and the last call is the octet string of the userData
with the same measured `n` as its length. -/
theorem connect_initial_length_in_int (s : Nat) (mcs : rdpMcs) (u : STREAM)
    (h : u.length ≤ 2147483532) :
    toInt32 (stream_get_length u) = (u.length : Int) ∧
    toInt32 (toInt32 (stream_get_length u) + 3 * 34 + 13) = (u.length : Int) + 3 * 34 + 13 ∧
    (u.length : Int) + 3 * 34 + 13 ≤ INT_MAX ∧
    0 < toInt32 (toInt32 (stream_get_length u) + 3 * 34 + 13) ∧
    (u.length : Int) < toInt32 (toInt32 (stream_get_length u) + 3 * 34 + 13) ∧
    connect_initial_declared mcs u = some ((u.length : Int) + 3 * 34 + 13) ∧
    (mcs_write_connect_initial BerCall.log [] s mcs u).getLast? =
      some (BerCall.octet_string s u (u.length : Int)) := by
  have h1 := toInt32_length u (by omega)
  have h2 : toInt32 ((u.length : Int) + 3 * 34 + 13) = (u.length : Int) + 3 * 34 + 13 := by
    apply toInt32_of_range <;> try unfold INT_MAX
    all_goals omega
  refine ⟨h1, ?_, ?_, ?_, ?_, ?_, ?_⟩
  · rw [h1, h2]
  · unfold INT_MAX
    omega
  · rw [h1, h2]
    omega
  · rw [h1, h2]
    omega
  · rw [connect_initial_declared_eq, h1, h2]
  · rw [connect_initial_log, h1]
    simp only [List.nil_append, ← List.append_assoc, List.getLast?_append,
      List.getLast?_singleton]
    rfl

/-- Witness of `connect_initial_length_in_int`: a three-byte payload on a freshly
created context, the sink at address `2`. -/
theorem connect_initial_length_in_int_witness :
    ([1, 2, 3] : STREAM).length ≤ 2147483532 ∧
    connect_initial_declared (fresh_context 7) [1, 2, 3] =
      some ((([1, 2, 3] : STREAM).length : Int) + 3 * 34 + 13) ∧
    (mcs_write_connect_initial BerCall.log [] 2 (fresh_context 7) [1, 2, 3]).getLast? =
      some (BerCall.octet_string 2 [1, 2, 3] (([1, 2, 3] : STREAM).length : Int)) :=
  ⟨by decide,
    (connect_initial_length_in_int 2 (fresh_context 7) [1, 2, 3] (by decide)).2.2.2.2.2.1,
    (connect_initial_length_in_int 2 (fresh_context 7) [1, 2, 3] (by decide)).2.2.2.2.2.2⟩

end Mcs
